import Mathlib

/-!
Shallow embedding of `src/warehouse_system.py`: a toy warehouse information
system built from six GoF design patterns (factory method, builder, facade,
composite, template method, visitor), plus its `Inventory` and `Database`
collaborators.  Console `print` calls are modelled as lines appended to an
explicit log, the inventory `dict` as an association list with Python `dict`
semantics, and `ValueError` as `Except.error` / `Option.none`.
-/

/-! ## Product hierarchy and factory (`Product`, `Clothing`, `Electronics`,
`Food`, `ProductFactory`) -/

/-- The three concrete `Product` subclasses of the source: `Clothing`,
`Electronics`, `Food`. -/
inductive ProductKind where
  | clothing
  | electronics
  | food
deriving DecidableEq, Repr

/-- A product: `name`, `price` (set in `Product.__init__`) plus the concrete
subclass it was constructed as. -/
structure Product where
  kind : ProductKind
  name : String
  price : Int
deriving DecidableEq, Repr

/-- `get_type` of each concrete subclass: the fixed label it returns. -/
def Product.getType : Product → String
  | ⟨.clothing, _, _⟩ => "Одежда"
  | ⟨.electronics, _, _⟩ => "Электроника"
  | ⟨.food, _, _⟩ => "Продукты"

/-- The kind tag string each branch of `ProductFactory.create_product`
recognises. -/
def kindTag : ProductKind → String
  | .clothing => "clothing"
  | .electronics => "electronics"
  | .food => "food"

/-- The documented category label for each kind (the value `get_type`
returns for the corresponding subclass). -/
def kindLabel : ProductKind → String
  | .clothing => "Одежда"
  | .electronics => "Электроника"
  | .food => "Продукты"

/-- `ProductFactory.create_product(product_type, name, price)`: dispatches on
the `product_type` string; raises `ValueError` (modelled as `Except.error`
carrying the message) for an unknown tag. -/
def ProductFactory.createProduct (productType name : String) (price : Int) :
    Except String Product :=
  if productType = "clothing" then .ok ⟨.clothing, name, price⟩
  else if productType = "electronics" then .ok ⟨.electronics, name, price⟩
  else if productType = "food" then .ok ⟨.food, name, price⟩
  else .error ("Неизвестный тип товара: " ++ productType)

/-! ## Builder (`Order`, `OrderBuilder`) -/

/-- `Order`: a list of products and an optional packaging label
(`None` initially). -/
structure Order where
  products : List Product
  packaging : Option String
deriving DecidableEq, Repr

/-- `Order.__init__`: empty product list, `packaging = None`. -/
def Order.new : Order := ⟨[], none⟩

/-- `Order.add_product`: appends to the product list. -/
def Order.addProduct (o : Order) (p : Product) : Order :=
  { o with products := o.products ++ [p] }

/-- `Order.set_packaging`: sets the packaging label. -/
def Order.setPackaging (o : Order) (packaging : String) : Order :=
  { o with packaging := some packaging }

/-- `OrderBuilder`: wraps the draft order. -/
structure OrderBuilder where
  order : Order
deriving DecidableEq, Repr

/-- `OrderBuilder.__init__`: starts from a fresh `Order()`. -/
def OrderBuilder.new : OrderBuilder := ⟨Order.new⟩

/-- `OrderBuilder.add_product`: delegates to the draft order and returns the
builder (chainable). -/
def OrderBuilder.addProduct (b : OrderBuilder) (p : Product) : OrderBuilder :=
  ⟨b.order.addProduct p⟩

/-- `OrderBuilder.set_packaging`: delegates to the draft order and returns
the builder (chainable). -/
def OrderBuilder.setPackaging (b : OrderBuilder) (packaging : String) :
    OrderBuilder :=
  ⟨b.order.setPackaging packaging⟩

/-- `OrderBuilder.build`: returns the draft order. -/
def OrderBuilder.build (b : OrderBuilder) : Order := b.order

/-! ## Composite (`ProductComponent`, `SingleProduct`, `ProductGroup`) -/

/-- The composite: `SingleProduct` leaves and `ProductGroup` nodes holding a
name and an ordered children list. -/
inductive ProductComponent where
  | single (product : Product)
  | group (name : String) (children : List ProductComponent)
deriving Repr

mutual

/-- `get_price`: a leaf returns the wrapped product price; `ProductGroup`
starts from `total = 0` and adds each child price in order. -/
def ProductComponent.getPrice : ProductComponent → Int
  | .single p => p.price
  | .group _ cs => getPriceChildren cs

/-- The `for child in self.children: total += child.get_price()` loop of
`ProductGroup.get_price`. -/
def getPriceChildren : List ProductComponent → Int
  | [] => 0
  | c :: rest => c.getPrice + getPriceChildren rest

end

mutual

/-- Structural equality of components (Python `==` used by `list.remove`). -/
def ProductComponent.eqb : ProductComponent → ProductComponent → Bool
  | .single p, .single q => p = q
  | .group n cs, .group m ds => n = m && eqbChildren cs ds
  | _, _ => false

/-- Structural equality of children lists. -/
def eqbChildren : List ProductComponent → List ProductComponent → Bool
  | [], [] => true
  | c :: cs, d :: ds => c.eqb d && eqbChildren cs ds
  | _, _ => false

end

mutual

theorem ProductComponent.eqb_iff : ∀ (a b : ProductComponent),
    a.eqb b = true ↔ a = b
  | .single _, .single _ => by simp [ProductComponent.eqb]
  | .single _, .group _ _ => by simp [ProductComponent.eqb]
  | .group _ _, .single _ => by simp [ProductComponent.eqb]
  | .group _ cs, .group _ ds => by
      simp [ProductComponent.eqb, eqbChildren_iff cs ds]

theorem eqbChildren_iff : ∀ (a b : List ProductComponent),
    eqbChildren a b = true ↔ a = b
  | [], [] => by simp [eqbChildren]
  | [], _ :: _ => by simp [eqbChildren]
  | _ :: _, [] => by simp [eqbChildren]
  | c :: cs, d :: ds => by
      simp [eqbChildren, ProductComponent.eqb_iff c d, eqbChildren_iff cs ds]

end

instance : DecidableEq ProductComponent :=
  fun a b => decidable_of_iff (a.eqb b = true) (a.eqb_iff b)

/-- Python `list.remove(x)`: removes the first element equal to `x`; raises
`ValueError` (modelled as `none`) when no element is equal. -/
def listRemoveFirst : List ProductComponent → ProductComponent →
    Option (List ProductComponent)
  | [], _ => none
  | x :: rest, y =>
      if x = y then some rest else (listRemoveFirst rest y).map (x :: ·)

/-- `ProductGroup.remove(component)`: `self.children.remove(component)` on a
group with name `n` and children `cs`; the result keeps the name and the
updated children, `none` standing for the raised `ValueError`. -/
def ProductGroup.remove (n : String) (cs : List ProductComponent)
    (c : ProductComponent) : Option (String × List ProductComponent) :=
  (listRemoveFirst cs c).map (fun cs' => (n, cs'))

/-! ## Visitor (`ProductVisitor`, `CostCalculatorVisitor`, `ReportVisitor`)

`SingleProduct.accept` forwards to `Product.accept`, which calls
`visitor.visit(product)`; `ProductGroup.accept` forwards to every child in
order.  A visitor is its mutable state `σ` together with its `visit`
method `σ → Product → σ`. -/

mutual

/-- `accept(visitor)` of a component, threading the visitor state. -/
def ProductComponent.accept {σ : Type} (visit : σ → Product → σ) :
    ProductComponent → σ → σ
  | .single p, s => visit s p
  | .group _ cs, s => acceptChildren visit cs s

/-- The `for child in self.children: child.accept(visitor)` loop of
`ProductGroup.accept`. -/
def acceptChildren {σ : Type} (visit : σ → Product → σ) :
    List ProductComponent → σ → σ
  | [], s => s
  | c :: rest, s => acceptChildren visit rest (c.accept visit s)

end

/-- `CostCalculatorVisitor.visit`: `self.total_cost += product.price`;
the state is `total_cost` (initially `0`). -/
def CostCalculatorVisitor.visit (totalCost : Int) (p : Product) : Int :=
  totalCost + p.price

/-- The line `ReportVisitor.visit` appends for one product. -/
def reportLine (p : Product) : String :=
  "Товар: " ++ p.name ++ ", Тип: " ++ p.getType ++ ", Цена: " ++
    toString p.price

/-- `ReportVisitor.visit`: appends the formatted line; the state is
`report_lines` (initially `[]`). -/
def ReportVisitor.visit (reportLines : List String) (p : Product) :
    List String :=
  reportLines ++ [reportLine p]

/-- `ReportVisitor.get_report`: joins the collected lines with newlines. -/
def ReportVisitor.getReport (reportLines : List String) : String :=
  String.intercalate "\n" reportLines

mutual

/-- The leaf products of a component tree, in pre-order. -/
def ProductComponent.leaves : ProductComponent → List Product
  | .single p => [p]
  | .group _ cs => leavesChildren cs

/-- The leaf products of a children list, in order. -/
def leavesChildren : List ProductComponent → List Product
  | [] => []
  | c :: rest => c.leaves ++ leavesChildren rest

end

/-! ## Inventory and Database collaborators -/

/-- Python `dict.get(key, default)` on an association list. -/
def dictGet (m : List ((String × String) × Int)) (k : String × String)
    (d : Int) : Int :=
  match m with
  | [] => d
  | (k', v) :: rest => if k' = k then v else dictGet rest k d

/-- Python `dict[key] = value`: updates the binding in place when the key is
present, appends it otherwise. -/
def dictSet (m : List ((String × String) × Int)) (k : String × String)
    (v : Int) : List ((String × String) × Int) :=
  match m with
  | [] => [(k, v)]
  | (k', v') :: rest =>
      if k' = k then (k, v) :: rest else (k', v') :: dictSet rest k v

/-- `Inventory`: the mutable stock ledger, a `dict` keyed by
`(product.get_type(), product.name)`. -/
structure Inventory where
  stock : List ((String × String) × Int)
deriving DecidableEq, Repr

/-- `Inventory.__init__`: empty dict. -/
def Inventory.new : Inventory := ⟨[]⟩

/-- The ledger key of a product: `(product.get_type(), product.name)`. -/
def stockKey (p : Product) : String × String := (p.getType, p.name)

/-- `Inventory.add_stock`:
`self.stock[key] = self.stock.get(key, 0) + quantity`. -/
def Inventory.addStock (inv : Inventory) (p : Product) (quantity : Int) :
    Inventory :=
  ⟨dictSet inv.stock (stockKey p) (dictGet inv.stock (stockKey p) 0 + quantity)⟩

/-- `Inventory.get_stock`: `self.stock.get(key, 0)`. -/
def Inventory.getStock (inv : Inventory) (p : Product) : Int :=
  dictGet inv.stock (stockKey p) 0

/-- `Database`: append-only supply log of `(product.name, quantity)` pairs. -/
structure Database where
  supplies : List (String × Int)
deriving DecidableEq, Repr

/-- `Database.__init__`: empty log. -/
def Database.new : Database := ⟨[]⟩

/-- `Database.save_supply`: appends `(product.name, quantity)`. -/
def Database.saveSupply (db : Database) (p : Product) (quantity : Int) :
    Database :=
  ⟨db.supplies ++ [(p.name, quantity)]⟩

/-! ## Program state: inventory, database, console log

Receiving processes, the facade and the storekeeper all mutate a shared
inventory/database and print status lines; the state bundles both with the
console log, each `print(...)` becoming one appended log line. -/

/-- Shared state: inventory, database, console log. -/
structure WState where
  inventory : Inventory
  database : Database
  log : List String
deriving DecidableEq, Repr

/-- `print(msg)`: one line appended to the console log. -/
def logLine (s : WState) (msg : String) : WState :=
  { s with log := s.log ++ [msg] }

/-! ## Template method (`ProductReceivingProcess`,
`StorekeeperReceivingProcess`) -/

/-- `ProductReceivingProcess.scan` (not overridden). -/
def ProductReceivingProcess.scan (s : WState) (p : Product) : WState :=
  logLine s ("Сканирование товара: " ++ p.name)

/-- `ProductReceivingProcess.store`: the base implementation only prints. -/
def ProductReceivingProcess.store (s : WState) (p : Product) (quantity : Int) :
    WState :=
  logLine s ("Размещение " ++ toString quantity ++ " шт. товара \x27" ++
    p.name ++ "\x27 на складе")

/-- The fixed `receive_product` skeleton: scan, then check; on success store
then maintenance, on failure print the error line and stop.  The `check`,
`store` and `maintenance` steps are the overridable policy. -/
def ProductReceivingProcess.receiveProduct
    (check : WState → Product → Int → WState × Bool)
    (store : WState → Product → Int → WState)
    (maintenance : WState → WState)
    (s : WState) (p : Product) (quantity : Int) : WState :=
  let s1 := ProductReceivingProcess.scan s p
  match check s1 p quantity with
  | (s2, true) => maintenance (store s2 p quantity)
  | (s2, false) => logLine s2 "Ошибка при приёме товара."

/-- `StorekeeperReceivingProcess.check`: passes exactly when
`quantity > 0`, printing the corresponding status line. -/
def StorekeeperReceivingProcess.check (s : WState) (_ : Product)
    (quantity : Int) : WState × Bool :=
  if quantity > 0 then (logLine s "Проверка пройдена", true)
  else (logLine s "Проверка не пройдена: количество должно быть положительным",
    false)

/-- `StorekeeperReceivingProcess.store`: `super().store(...)` then
`self.inventory.add_stock(product, quantity)`. -/
def StorekeeperReceivingProcess.store (s : WState) (p : Product)
    (quantity : Int) : WState :=
  let s1 := ProductReceivingProcess.store s p quantity
  { s1 with inventory := s1.inventory.addStock p quantity }

/-- `StorekeeperReceivingProcess.maintenance`: prints its status line. -/
def StorekeeperReceivingProcess.maintenance (s : WState) : WState :=
  logLine s "Техобслуживание после приёма товара (если необходимо)"

/-- `StorekeeperReceivingProcess.receive_product`: the base skeleton with
the storekeeper policy steps. -/
def StorekeeperReceivingProcess.receiveProduct (s : WState) (p : Product)
    (quantity : Int) : WState :=
  ProductReceivingProcess.receiveProduct StorekeeperReceivingProcess.check
    StorekeeperReceivingProcess.store StorekeeperReceivingProcess.maintenance
    s p quantity

/-! ## Facade (`WarehouseFacade`) and users -/

/-- `WarehouseFacade.register_supply`: prints, then
`inventory.add_stock(product, quantity)`. -/
def WarehouseFacade.registerSupply (s : WState) (p : Product)
    (quantity : Int) : WState :=
  let s1 := logLine s ("Регистрация поставки: " ++ p.name ++ " x" ++
    toString quantity)
  { s1 with inventory := s1.inventory.addStock p quantity }

/-- `WarehouseFacade.check_inventory`: reads the current stock and prints
it. -/
def WarehouseFacade.checkInventory (s : WState) (p : Product) : WState :=
  let qty := s.inventory.getStock p
  logLine s ("Проверка наличия товара \x27" ++ p.name ++ "\x27: " ++
    toString qty ++ " шт.")

/-- `WarehouseFacade.save_to_database`: `database.save_supply(...)`, which
appends the record and prints. -/
def WarehouseFacade.saveToDatabase (s : WState) (p : Product)
    (quantity : Int) : WState :=
  let s1 := { s with database := s.database.saveSupply p quantity }
  logLine s1 ("Данные о поставке сохранены в БД: " ++ p.name ++ " x" ++
    toString quantity)

/-- `WarehouseFacade.process_supply`: header line, `register_supply`,
`check_inventory`, `save_to_database`, footer line. -/
def WarehouseFacade.processSupply (s : WState) (p : Product)
    (quantity : Int) : WState :=
  let s1 := logLine s ("Обработка поставки: " ++ p.name ++ ", количество: " ++
    toString quantity)
  let s2 := WarehouseFacade.registerSupply s1 p quantity
  let s3 := WarehouseFacade.checkInventory s2 p
  let s4 := WarehouseFacade.saveToDatabase s3 p quantity
  logLine s4 "Поставка обработана.\n"

/-- `Storekeeper.receive_supply`: status line, the receiving process on the
shared inventory, then the facade on the same state (as wired in `main`). -/
def Storekeeper.receiveSupply (s : WState) (p : Product) (quantity : Int) :
    WState :=
  let s1 := logLine s "Кладовщик начинает приём поставки..."
  let s2 := StorekeeperReceivingProcess.receiveProduct s1 p quantity
  WarehouseFacade.processSupply s2 p quantity

/-! ## Supporting lemmas -/

theorem dictGet_dictSet_self (m : List ((String × String) × Int))
    (k : String × String) (v d : Int) : dictGet (dictSet m k v) k d = v := by
  induction m with
  | nil => simp [dictSet, dictGet]
  | cons kv rest ih =>
      obtain ⟨k', v'⟩ := kv
      by_cases h : k' = k
      · simp [dictSet, dictGet, h]
      · simp [dictSet, dictGet, h, ih]

theorem dictGet_dictSet_ne (m : List ((String × String) × Int))
    (k k' : String × String) (v d : Int) (h : k' ≠ k) :
    dictGet (dictSet m k v) k' d = dictGet m k' d := by
  have h3 : ¬k = k' := fun h' => h h'.symm
  induction m with
  | nil => simp [dictSet, dictGet, h3]
  | cons kv rest ih =>
      obtain ⟨k'', v''⟩ := kv
      by_cases h2 : k'' = k
      · simp [dictSet, dictGet, h2, h3]
      · simp [dictSet, dictGet, h2, ih]

theorem dictGet_not_mem (m : List ((String × String) × Int))
    (k : String × String) (h : k ∉ m.map Prod.fst) : dictGet m k 0 = 0 := by
  induction m with
  | nil => rfl
  | cons kv rest ih =>
      obtain ⟨k', v'⟩ := kv
      simp only [List.map_cons, List.mem_cons, not_or] at h
      have h3 : ¬k' = k := fun h' => h.1 h'.symm
      simp [dictGet, h3, ih h.2]

theorem Inventory.getStock_addStock (inv : Inventory) (p p' : Product)
    (q : Int) :
    (inv.addStock p q).getStock p' =
      if stockKey p' = stockKey p then inv.getStock p' + q
      else inv.getStock p' := by
  by_cases h : stockKey p' = stockKey p
  · simp [Inventory.addStock, Inventory.getStock, h, dictGet_dictSet_self]
  · simp [Inventory.addStock, Inventory.getStock, h,
      dictGet_dictSet_ne _ _ _ _ _ h]

theorem Inventory.getStock_addStock_self (inv : Inventory) (p : Product)
    (q : Int) : (inv.addStock p q).getStock p = inv.getStock p + q := by
  simp [Inventory.getStock_addStock]

theorem StorekeeperReceivingProcess.receiveProduct_pos (s : WState)
    (p : Product) (q : Int) (h : 0 < q) :
    StorekeeperReceivingProcess.receiveProduct s p q =
      ⟨s.inventory.addStock p q, s.database,
        s.log ++ ["Сканирование товара: " ++ p.name, "Проверка пройдена",
          "Размещение " ++ toString q ++ " шт. товара \x27" ++ p.name ++
            "\x27 на складе",
          "Техобслуживание после приёма товара (если необходимо)"]⟩ := by
  simp [StorekeeperReceivingProcess.receiveProduct,
    ProductReceivingProcess.receiveProduct, ProductReceivingProcess.scan,
    StorekeeperReceivingProcess.check, h, StorekeeperReceivingProcess.store,
    ProductReceivingProcess.store, StorekeeperReceivingProcess.maintenance,
    logLine]

theorem StorekeeperReceivingProcess.receiveProduct_nonpos (s : WState)
    (p : Product) (q : Int) (h : q ≤ 0) :
    StorekeeperReceivingProcess.receiveProduct s p q =
      ⟨s.inventory, s.database,
        s.log ++ ["Сканирование товара: " ++ p.name,
          "Проверка не пройдена: количество должно быть положительным",
          "Ошибка при приёме товара."]⟩ := by
  simp [StorekeeperReceivingProcess.receiveProduct,
    ProductReceivingProcess.receiveProduct, ProductReceivingProcess.scan,
    StorekeeperReceivingProcess.check, not_lt.mpr h, logLine]

theorem WarehouseFacade.processSupply_eq (s : WState) (p : Product)
    (q : Int) :
    WarehouseFacade.processSupply s p q =
      ⟨s.inventory.addStock p q, s.database.saveSupply p q,
        s.log ++ ["Обработка поставки: " ++ p.name ++ ", количество: " ++
            toString q,
          "Регистрация поставки: " ++ p.name ++ " x" ++ toString q,
          "Проверка наличия товара \x27" ++ p.name ++ "\x27: " ++
            toString (s.inventory.getStock p + q) ++ " шт.",
          "Данные о поставке сохранены в БД: " ++ p.name ++ " x" ++
            toString q,
          "Поставка обработана.\n"]⟩ := by
  simp [WarehouseFacade.processSupply, WarehouseFacade.registerSupply,
    WarehouseFacade.checkInventory, WarehouseFacade.saveToDatabase,
    logLine, Inventory.getStock_addStock_self]

mutual

theorem ProductComponent.accept_eq_foldl {σ : Type} (visit : σ → Product → σ) :
    ∀ (t : ProductComponent) (s : σ), t.accept visit s = t.leaves.foldl visit s
  | .single p, s => by
      simp [ProductComponent.accept, ProductComponent.leaves]
  | .group _ cs, s => by
      simp [ProductComponent.accept, ProductComponent.leaves,
        acceptChildren_eq_foldl visit cs s]

theorem acceptChildren_eq_foldl {σ : Type} (visit : σ → Product → σ) :
    ∀ (cs : List ProductComponent) (s : σ),
      acceptChildren visit cs s = (leavesChildren cs).foldl visit s
  | [], s => by simp [acceptChildren, leavesChildren]
  | c :: rest, s => by
      rw [acceptChildren, leavesChildren, List.foldl_append,
        ProductComponent.accept_eq_foldl visit c s,
        acceptChildren_eq_foldl visit rest]

end

theorem foldl_costVisit (ps : List Product) (t : Int) :
    ps.foldl CostCalculatorVisitor.visit t = t + (ps.map Product.price).sum := by
  induction ps generalizing t with
  | nil => simp
  | cons p rest ih => simp [CostCalculatorVisitor.visit, ih, add_assoc]

theorem foldl_reportVisit (ps : List Product) (ls : List String) :
    ps.foldl ReportVisitor.visit ls = ls ++ ps.map reportLine := by
  induction ps generalizing ls with
  | nil => simp
  | cons p rest ih => simp [ReportVisitor.visit, ih]

mutual

theorem getPriceChildren_eq_sum : ∀ (cs : List ProductComponent),
    getPriceChildren cs = (cs.map ProductComponent.getPrice).sum
  | [] => by simp [getPriceChildren]
  | c :: rest => by
      simp [getPriceChildren, getPriceChildren_eq_sum rest]

end

theorem listRemoveFirst_of_not_mem (cs : List ProductComponent)
    (c : ProductComponent) (h : c ∉ cs) : listRemoveFirst cs c = none := by
  induction cs with
  | nil => rfl
  | cons x rest ih =>
      simp only [List.mem_cons, not_or] at h
      have h3 : ¬x = c := fun h' => h.1 h'.symm
      simp [listRemoveFirst, h3, ih h.2]

theorem listRemoveFirst_append (pre post : List ProductComponent)
    (c : ProductComponent) (h : c ∉ pre) :
    listRemoveFirst (pre ++ c :: post) c = some (pre ++ post) := by
  induction pre with
  | nil => simp [listRemoveFirst]
  | cons x rest ih =>
      simp only [List.mem_cons, not_or] at h
      have h3 : ¬x = c := fun h' => h.1 h'.symm
      simp [listRemoveFirst, h3, ih h.2]

/-! ## Claims -/

/-- Claim C1: running `StorekeeperReceivingProcess.receive_product` with
`quantity > 0` increases the inventory stock at the product's
`(category, name)` key by exactly that quantity and takes the success branch
(check passed, store, maintenance); with `quantity ≤ 0` the inventory is left
entirely unchanged and the process takes the failure branch without
storing. -/
theorem receiveProduct_spec (s : WState) (p : Product) (q : Int) :
    (0 < q →
      (StorekeeperReceivingProcess.receiveProduct s p q).inventory.getStock p
          = s.inventory.getStock p + q
        ∧ (∀ p' : Product, stockKey p' ≠ stockKey p →
            (StorekeeperReceivingProcess.receiveProduct s p q).inventory.getStock p'
              = s.inventory.getStock p')
        ∧ (StorekeeperReceivingProcess.receiveProduct s p q).log
            = s.log ++ ["Сканирование товара: " ++ p.name,
                "Проверка пройдена",
                "Размещение " ++ toString q ++ " шт. товара \x27" ++ p.name ++
                  "\x27 на складе",
                "Техобслуживание после приёма товара (если необходимо)"])
    ∧ (q ≤ 0 →
      (StorekeeperReceivingProcess.receiveProduct s p q).inventory = s.inventory
        ∧ (StorekeeperReceivingProcess.receiveProduct s p q).log
            = s.log ++ ["Сканирование товара: " ++ p.name,
                "Проверка не пройдена: количество должно быть положительным",
                "Ошибка при приёме товара."]) := by
  constructor
  · intro h
    rw [StorekeeperReceivingProcess.receiveProduct_pos s p q h]
    refine ⟨Inventory.getStock_addStock_self _ _ _, fun p' hp => ?_, rfl⟩
    simp [Inventory.getStock_addStock, hp]
  · intro h
    rw [StorekeeperReceivingProcess.receiveProduct_nonpos s p q h]
    exact ⟨rfl, rfl⟩

/-- Witness for the receiving-process claim, at quantity `3` (success branch)
and quantity `-1` (failure branch). -/
theorem receiveProduct_spec_witness :
    (StorekeeperReceivingProcess.receiveProduct
        ⟨Inventory.new, Database.new, []⟩ ⟨.food, "Яблоко", 50⟩ 3).inventory.getStock
          ⟨.food, "Яблоко", 50⟩
        = (⟨Inventory.new, Database.new, []⟩ : WState).inventory.getStock
            ⟨.food, "Яблоко", 50⟩ + 3
    ∧ (StorekeeperReceivingProcess.receiveProduct
        ⟨Inventory.new, Database.new, []⟩ ⟨.food, "Яблоко", 50⟩ 3).inventory.getStock
          ⟨.clothing, "Футболка", 500⟩
        = (⟨Inventory.new, Database.new, []⟩ : WState).inventory.getStock
            ⟨.clothing, "Футболка", 500⟩
    ∧ (StorekeeperReceivingProcess.receiveProduct
        ⟨Inventory.new, Database.new, []⟩ ⟨.food, "Яблоко", 50⟩ (-1)).inventory
        = (⟨Inventory.new, Database.new, []⟩ : WState).inventory :=
  ⟨((receiveProduct_spec ⟨Inventory.new, Database.new, []⟩ ⟨.food, "Яблоко", 50⟩ 3).1
      (by decide)).1,
   ((receiveProduct_spec ⟨Inventory.new, Database.new, []⟩ ⟨.food, "Яблоко", 50⟩ 3).1
      (by decide)).2.1 ⟨.clothing, "Футболка", 500⟩ (by decide),
   ((receiveProduct_spec ⟨Inventory.new, Database.new, []⟩ ⟨.food, "Яблоко", 50⟩ (-1)).2
      (by decide)).1⟩

/-- Claim C2: for each of the three valid kind tags,
`ProductFactory.create_product` returns a product whose category label is the
fixed documented label for that kind; for any other tag it raises
`ValueError` and produces no product. -/
theorem createProduct_spec (n : String) (pr : Int) :
    (∀ k : ProductKind,
      ProductFactory.createProduct (kindTag k) n pr = .ok ⟨k, n, pr⟩
        ∧ Product.getType ⟨k, n, pr⟩ = kindLabel k)
    ∧ (∀ tag : String, tag ≠ "clothing" → tag ≠ "electronics" → tag ≠ "food" →
        ProductFactory.createProduct tag n pr
          = .error ("Неизвестный тип товара: " ++ tag)) := by
  constructor
  · intro k
    cases k <;>
      simp [ProductFactory.createProduct, kindTag, kindLabel, Product.getType]
  · intro tag h1 h2 h3
    simp [ProductFactory.createProduct, h1, h2, h3]

/-- Witness for the factory claim, at the valid tag `food` and the invalid
tag `toy`. -/
theorem createProduct_spec_witness :
    (ProductFactory.createProduct (kindTag .food) "Яблоко" 50
        = .ok ⟨.food, "Яблоко", 50⟩
      ∧ Product.getType ⟨.food, "Яблоко", 50⟩ = kindLabel .food)
    ∧ ProductFactory.createProduct "toy" "Яблоко" 50
        = .error ("Неизвестный тип товара: " ++ "toy") :=
  ⟨(createProduct_spec "Яблоко" 50).1 .food,
   (createProduct_spec "Яблоко" 50).2 "toy" (by decide) (by decide) (by decide)⟩

/-- Claim C3: `ProductGroup.get_price` equals the sum of its children's
`get_price` values, and a group with no children has price `0`. -/
theorem groupPrice_spec (n : String) (cs : List ProductComponent) :
    ProductComponent.getPrice (.group n cs)
        = (cs.map ProductComponent.getPrice).sum
    ∧ ProductComponent.getPrice (.group n []) = 0 := by
  constructor
  · simp [ProductComponent.getPrice, getPriceChildren_eq_sum]
  · simp [ProductComponent.getPrice, getPriceChildren]

/-- Claim C4: accepting a fresh `CostCalculatorVisitor` (total `0`) on any
component tree leaves its total equal to the sum of the prices of all leaf
products of the tree. -/
theorem costCalculator_spec (t : ProductComponent) :
    ProductComponent.accept CostCalculatorVisitor.visit t 0
      = ((t.leaves).map Product.price).sum := by
  rw [ProductComponent.accept_eq_foldl, foldl_costVisit]
  simp

/-- Claim C5: accepting a fresh `ReportVisitor` on a group with children
`[A, B]` produces the report whose lines are all of `A`'s leaf lines followed
by all of `B`'s leaf lines, in pre-order. -/
theorem reportOrder_spec (n : String) (A B : ProductComponent) :
    ReportVisitor.getReport
        (ProductComponent.accept ReportVisitor.visit (.group n [A, B]) [])
      = String.intercalate "\n"
          ((A.leaves).map reportLine ++ (B.leaves).map reportLine) := by
  rw [ProductComponent.accept_eq_foldl, foldl_reportVisit]
  simp [ReportVisitor.getReport, ProductComponent.leaves, leavesChildren]

/-- Claim C6: `WarehouseFacade.process_supply` performs exactly one inventory
increment of the quantity at the product's `(category, name)` key (all other
keys unchanged), one read-back of the current stock (the printed check line),
and appends exactly one database record `(product name, quantity)`. -/
theorem processSupply_spec (s : WState) (p : Product) (q : Int) :
    (WarehouseFacade.processSupply s p q).inventory.getStock p
        = s.inventory.getStock p + q
    ∧ (∀ p' : Product, stockKey p' ≠ stockKey p →
        (WarehouseFacade.processSupply s p q).inventory.getStock p'
          = s.inventory.getStock p')
    ∧ (WarehouseFacade.processSupply s p q).database.supplies
        = s.database.supplies ++ [(p.name, q)]
    ∧ (WarehouseFacade.processSupply s p q).log
        = s.log ++ ["Обработка поставки: " ++ p.name ++ ", количество: " ++
              toString q,
            "Регистрация поставки: " ++ p.name ++ " x" ++ toString q,
            "Проверка наличия товара \x27" ++ p.name ++ "\x27: " ++
              toString (s.inventory.getStock p + q) ++ " шт.",
            "Данные о поставке сохранены в БД: " ++ p.name ++ " x" ++
              toString q,
            "Поставка обработана.\n"] := by
  rw [WarehouseFacade.processSupply_eq]
  refine ⟨Inventory.getStock_addStock_self _ _ _, fun p' hp => ?_, ?_, rfl⟩
  · simp [Inventory.getStock_addStock, hp]
  · simp [Database.saveSupply]

/-- Witness for the facade claim, at quantity `10`. -/
theorem processSupply_spec_witness :
    (WarehouseFacade.processSupply ⟨Inventory.new, Database.new, []⟩
          ⟨.food, "Яблоко", 50⟩ 10).inventory.getStock ⟨.food, "Яблоко", 50⟩
        = (⟨Inventory.new, Database.new, []⟩ : WState).inventory.getStock
            ⟨.food, "Яблоко", 50⟩ + 10
    ∧ (WarehouseFacade.processSupply ⟨Inventory.new, Database.new, []⟩
          ⟨.food, "Яблоко", 50⟩ 10).inventory.getStock ⟨.clothing, "Футболка", 500⟩
        = (⟨Inventory.new, Database.new, []⟩ : WState).inventory.getStock
            ⟨.clothing, "Футболка", 500⟩
    ∧ (WarehouseFacade.processSupply ⟨Inventory.new, Database.new, []⟩
          ⟨.food, "Яблоко", 50⟩ 10).database.supplies
        = (⟨Inventory.new, Database.new, []⟩ : WState).database.supplies ++
            [("Яблоко", 10)] :=
  ⟨(processSupply_spec ⟨Inventory.new, Database.new, []⟩
      ⟨.food, "Яблоко", 50⟩ 10).1,
   (processSupply_spec ⟨Inventory.new, Database.new, []⟩
      ⟨.food, "Яблоко", 50⟩ 10).2.1 ⟨.clothing, "Футболка", 500⟩ (by decide),
   (processSupply_spec ⟨Inventory.new, Database.new, []⟩
      ⟨.food, "Яблоко", 50⟩ 10).2.2.1⟩

/-- Counterexample to the claim that the inventory ledger only ever holds
non-negative quantities that only increase via `add_stock`: `add_stock` with
quantity `-1` strictly decreases the stored quantity and leaves it
negative. -/
theorem inventory_nonneg_counterexample :
    (Inventory.addStock Inventory.new ⟨.food, "Яблоко", 50⟩ (-1)).getStock
        ⟨.food, "Яблоко", 50⟩
      < Inventory.new.getStock ⟨.food, "Яблоко", 50⟩
    ∧ (Inventory.addStock Inventory.new ⟨.food, "Яблоко", 50⟩ (-1)).getStock
        ⟨.food, "Яблоко", 50⟩ < 0 := by
  refine ⟨?_, ?_⟩ <;>
    simp [Inventory.new, Inventory.addStock, Inventory.getStock, dictSet,
      dictGet, stockKey]

/-- Claim C7 (amended): when the quantity is non-negative, `add_stock`
never decreases any stored quantity and preserves non-negativity of the
ledger; `get_stock` of a key absent from the ledger returns zero. -/
theorem inventory_invariant (inv : Inventory) (p : Product) (q : Int) :
    (0 ≤ q →
      (∀ p' : Product, inv.getStock p' ≤ (inv.addStock p q).getStock p')
      ∧ (∀ p' : Product, 0 ≤ inv.getStock p' →
          0 ≤ (inv.addStock p q).getStock p'))
    ∧ (stockKey p ∉ inv.stock.map Prod.fst → inv.getStock p = 0) := by
  constructor
  · intro hq
    constructor
    · intro p'
      rw [Inventory.getStock_addStock]
      split <;> omega
    · intro p' h0
      rw [Inventory.getStock_addStock]
      split <;> omega
  · exact dictGet_not_mem _ _

/-- Witness for the amended inventory claim, at quantity `5` on the empty
ledger. -/
theorem inventory_invariant_witness :
    Inventory.new.getStock ⟨.food, "Яблоко", 50⟩
        ≤ (Inventory.new.addStock ⟨.food, "Яблоко", 50⟩ 5).getStock
            ⟨.food, "Яблоко", 50⟩
    ∧ Inventory.new.getStock ⟨.food, "Яблоко", 50⟩ = 0 :=
  ⟨((inventory_invariant Inventory.new ⟨.food, "Яблоко", 50⟩ 5).1
      (by decide)).1 ⟨.food, "Яблоко", 50⟩,
   (inventory_invariant Inventory.new ⟨.food, "Яблоко", 50⟩ 5).2
      (by simp [Inventory.new])⟩

/-- Claim C8: the chained calls
`addProduct(a).addProduct(b).setPackaging("X").build()` on a fresh builder
return an order whose products are exactly `[a, b]` in that order and whose
packaging is `"X"`. -/
theorem builder_spec (a b : Product) :
    ((((OrderBuilder.new.addProduct a).addProduct b).setPackaging
        "X").build).products = [a, b]
    ∧ ((((OrderBuilder.new.addProduct a).addProduct b).setPackaging
        "X").build).packaging = some "X" := by
  constructor <;>
    simp [OrderBuilder.new, Order.new, OrderBuilder.addProduct,
      Order.addProduct, OrderBuilder.setPackaging, Order.setPackaging,
      OrderBuilder.build]

/-- Claim C9: with quantity `> 0`, `Storekeeper.receive_supply` adds the
quantity to the shared inventory twice — once in the receiving process's
store step and once in the facade's register step — while appending exactly
one database supply record. -/
theorem receiveSupply_double (s : WState) (p : Product) (q : Int)
    (h : 0 < q) :
    (Storekeeper.receiveSupply s p q).inventory.getStock p
        = s.inventory.getStock p + 2 * q
    ∧ (Storekeeper.receiveSupply s p q).database.supplies
        = s.database.supplies ++ [(p.name, q)] := by
  simp only [Storekeeper.receiveSupply]
  rw [StorekeeperReceivingProcess.receiveProduct_pos _ p q h,
    WarehouseFacade.processSupply_eq]
  constructor
  · simp [logLine, Inventory.getStock_addStock_self]
    ring
  · simp [logLine, Database.saveSupply]

/-- Witness for the double-add claim, at quantity `10`. -/
theorem receiveSupply_double_witness :
    (Storekeeper.receiveSupply ⟨Inventory.new, Database.new, []⟩
          ⟨.food, "Яблоко", 50⟩ 10).inventory.getStock ⟨.food, "Яблоко", 50⟩
        = (⟨Inventory.new, Database.new, []⟩ : WState).inventory.getStock
            ⟨.food, "Яблоко", 50⟩ + 2 * 10
    ∧ (Storekeeper.receiveSupply ⟨Inventory.new, Database.new, []⟩
          ⟨.food, "Яблоко", 50⟩ 10).database.supplies
        = (⟨Inventory.new, Database.new, []⟩ : WState).database.supplies ++
            [("Яблоко", 10)] :=
  receiveSupply_double ⟨Inventory.new, Database.new, []⟩ ⟨.food, "Яблоко", 50⟩
    10 (by decide)

/-- Claim C10: `ProductGroup.remove` with a component not among the children
raises `ValueError` (modelled as `none`, not a no-op); with the component
present it removes exactly the first occurrence, leaving the rest of the
children in order. -/
theorem groupRemove_spec (n : String) (cs : List ProductComponent)
    (c : ProductComponent) :
    (c ∉ cs → ProductGroup.remove n cs c = none)
    ∧ (∀ pre post, cs = pre ++ c :: post → c ∉ pre →
        ProductGroup.remove n cs c = some (n, pre ++ post)) := by
  constructor
  · intro h
    simp [ProductGroup.remove, listRemoveFirst_of_not_mem cs c h]
  · intro pre post hcs hpre
    subst hcs
    simp [ProductGroup.remove, listRemoveFirst_append pre post c hpre]

/-- Witness for the remove claim: removing an absent leaf yields `none`;
removing a present leaf drops its first occurrence only. -/
theorem groupRemove_spec_witness :
    ProductGroup.remove "g" [.single ⟨.food, "a", 1⟩] (.single ⟨.food, "b", 2⟩)
        = none
    ∧ ProductGroup.remove "g"
        [.single ⟨.food, "a", 1⟩, .single ⟨.food, "b", 2⟩]
        (.single ⟨.food, "b", 2⟩)
        = some ("g", [.single ⟨.food, "a", 1⟩] ++ []) :=
  ⟨(groupRemove_spec "g" [.single ⟨.food, "a", 1⟩] (.single ⟨.food, "b", 2⟩)).1
      (by simp),
   (groupRemove_spec "g" [.single ⟨.food, "a", 1⟩, .single ⟨.food, "b", 2⟩]
      (.single ⟨.food, "b", 2⟩)).2 [.single ⟨.food, "a", 1⟩] [] rfl (by simp)⟩
